import Mathlib

/-!
Verification of the inventory/ledger reconciliation logic of the
`inventario-ventas` repository (src/prueba.py and src/app.py), as a shallow
embedding over flat lists of records.

Modelling conventions:
* Spreadsheet rows become Lean structures; numeric cells read back from the
  sheet become `Option ℚ` (`none` models a non-numeric / malformed cell,
  `some q` a numeric one).  `toNumeric0` is the pandas coerce-then-fill-zero
  numeric conversion.
* `datetime.now()` becomes an explicit `now : String` parameter; the month
  column that the Finanzas page derives from a record's timestamp via
  `dt.to_period` is modelled as an explicit `mes` field of each record.
* pandas `groupby` sorts its group keys; `sortKeys` (first-occurrence
  de-duplication followed by an insertion sort on the lexicographic string
  order) models a sorted group-key index.
-/

/-- pandas `pd.to_numeric(errors = coerce).fillna(0)`: a malformed
(non-numeric) cell becomes 0. -/
def toNumeric0 (x : Option ℚ) : ℚ := x.getD 0

/-- A row of the `Ventas` sheet:
`ID Venta, Fecha, Producto, Talla, Cliente, Cantidad, Precio Unitario,
Total Venta, Estado Pago` (the `mes` field is the month string the Finanzas
page derives from `Fecha`). -/
structure Venta where
  idVenta : String
  fecha : String
  mes : String
  producto : String
  talla : String
  cliente : String
  cantidad : Option ℚ
  precioUnitario : Option ℚ
  totalVenta : Option ℚ
  estadoPago : String
deriving DecidableEq

/-- A row of the `Compras` sheet:
`ID Compra, Fecha, Producto, Talla, Proveedor, Cantidad, Costo Total,
Costo Envio`. -/
structure Compra where
  idCompra : String
  fecha : String
  mes : String
  producto : String
  talla : String
  proveedor : String
  cantidad : Option ℚ
  costoTotal : Option ℚ
  costoEnvio : Option ℚ
deriving DecidableEq

/-- A row of the `Pagos` sheet: `ID Pago, ID Venta, Fecha Pago, Monto Pagado`. -/
structure Pago where
  idPago : String
  idVenta : String
  fechaPago : String
  mes : String
  montoPagado : Option ℚ
deriving DecidableEq

/-- A row of the derived `Inventario` sheet. -/
structure InventarioRow where
  sku : String
  producto : String
  talla : String
  unidadesCompradas : ℚ
  unidadesVendidas : ℚ
  stockActual : ℚ
  fechaActualizacion : String
deriving DecidableEq

/-- The SKU synthesised by `actualizar_inventario`:
`Producto + " - " + Talla`. -/
def skuOf (producto talla : String) : String := producto ++ " - " ++ talla

/-- Splitting a character list on every occurrence of the three-character
separator `" - "`, scanning left to right — the behaviour of
`Series.str.split(' - ')`. -/
def splitSep : List Char → List (List Char)
  | ' ' :: '-' :: ' ' :: rest => [] :: splitSep rest
  | c :: rest =>
    match splitSep rest with
    | [] => [[c]]
    | y :: ys => (c :: y) :: ys
  | [] => [[]]

/-- Whether a character list contains the separator `" - "`. -/
def hasSep : List Char → Bool
  | ' ' :: '-' :: ' ' :: _ => true
  | _ :: rest => hasSep rest
  | [] => false

/-- Whether a character list ends with the two characters `" -"` (a space
then a dash); such a suffix merges with the following separator. -/
def endsSpaceDash : List Char → Bool
  | [] => false
  | [_] => false
  | [a, b] => a = ' ' && b = '-'
  | _ :: rest => endsSpaceDash rest

/-- `SKU.str.split(' - ')` as performed on read-back of the inventory. -/
def splitSku (sku : String) : List String :=
  (splitSep sku.data).map String.mk

example : splitSku (skuOf "Bata" "S") = ["Bata", "S"] := by decide
example : splitSku (skuOf "A -" "B") = ["A", "- B"] := by decide
example : hasSep "A -".data = false := by decide
example : endsSpaceDash "A -".data = true := by decide

/-- Column `i` of the `expand = True` split of a SKU (empty when absent). -/
def parteSku (sku : String) (i : Nat) : String :=
  (splitSku sku).getD i ""

/-- First-occurrence de-duplication of a key list, carrying the set of keys
already seen.  `dedupKeysAux []` keeps the first occurrence of every key in
order, the distinct-key set of a pandas `groupby`. -/
def dedupKeysAux (seen : List String) : List String → List String
  | [] => []
  | k :: ks =>
    if k ∈ seen then dedupKeysAux seen ks
    else k :: dedupKeysAux (k :: seen) ks

/-- The distinct keys of a list, first occurrence first. -/
def dedupKeys (l : List String) : List String := dedupKeysAux [] l

/-- Lexicographic comparison of character lists by code point — the string
order pandas sorts group keys with. -/
def leChars : List Char → List Char → Bool
  | [], _ => true
  | _ :: _, [] => false
  | a :: as, b :: bs => if a = b then leChars as bs else decide (a < b)

/-- Lexicographic string comparison by code point. -/
def leStr (a b : String) : Bool := leChars a.data b.data

/-- The sorted distinct keys of a list: pandas `groupby` (and an outer
merge on the grouped frames) indexes the result by the sorted distinct
keys. -/
def sortKeys (l : List String) : List String :=
  List.insertionSort (fun a b => leStr a b = true) (dedupKeys l)

example : sortKeys ["b", "a", "b"] = ["a", "b"] := by decide

/-- The SKU column added to a `Ventas` row. -/
def skuVenta (v : Venta) : String := skuOf v.producto v.talla

/-- The SKU column added to a `Compras` row. -/
def skuCompra (c : Compra) : String := skuOf c.producto c.talla

/-- `compras_df.groupby('SKU')['Cantidad'].sum()` at a given SKU, after the
outer merge's `fillna(0)` (a SKU absent from the purchases log sums to 0). -/
def unidadesCompradasDe (compras : List Compra) (sku : String) : ℚ :=
  ((compras.filter (fun c => skuCompra c == sku)).map
    (fun c => toNumeric0 c.cantidad)).sum

/-- `ventas_df.groupby('SKU')['Cantidad'].sum()` at a given SKU, after the
outer merge's `fillna(0)`. -/
def unidadesVendidasDe (ventas : List Venta) (sku : String) : ℚ :=
  ((ventas.filter (fun v => skuVenta v == sku)).map
    (fun v => toNumeric0 v.cantidad)).sum

/-- One row of the recomputed inventory for a given SKU:
`Producto` and `Talla` recovered by splitting the SKU, the two unit sums,
`Stock Actual` as their difference, and the `now` timestamp. -/
def filaInventario (now : String) (compras : List Compra) (ventas : List Venta)
    (sku : String) : InventarioRow :=
  { sku := sku
    producto := parteSku sku 0
    talla := parteSku sku 1
    unidadesCompradas := unidadesCompradasDe compras sku
    unidadesVendidas := unidadesVendidasDe ventas sku
    stockActual := unidadesCompradasDe compras sku - unidadesVendidasDe ventas sku
    fechaActualizacion := now }

/-- `actualizar_inventario` (src/prueba.py lines 86-124): when both logs are
empty the derived sheet is rewritten with headers only (no rows); otherwise
purchases and sales are grouped by SKU, outer-joined with `fillna(0)`,
`Stock Actual = Unidades Compradas - Unidades Vendidas`, and every row is
stamped with the current time.  The returned list is the full replacement
content of the `Inventario` sheet. -/
def actualizarInventario (now : String) (compras : List Compra)
    (ventas : List Venta) : List InventarioRow :=
  if compras.isEmpty && ventas.isEmpty then []
  else
    (sortKeys (compras.map skuCompra ++ ventas.map skuVenta)).map
      (filaInventario now compras ventas)

/-- The data columns of an inventory row — everything except the
`Fecha Actualizacion` stamp. -/
def datosFila (r : InventarioRow) : String × String × String × ℚ × ℚ × ℚ :=
  (r.sku, r.producto, r.talla, r.unidadesCompradas, r.unidadesVendidas,
    r.stockActual)

example :
    actualizarInventario "t" []
      [⟨"V1", "f", "m", "Bata", "S", "Ana", some 2, some 50, some 100, "Debe"⟩] =
    [⟨"Bata - S", "Bata", "S", 0, 2, -2, "t"⟩] := by with_unfolding_all decide

/-- A row of the on-screen debt summary built by the Cuentas por Cobrar page:
`ID Venta, Cliente, Total_Venta, Monto Pagado, Saldo Pendiente`. -/
structure DeudaRow where
  idVenta : String
  cliente : String
  totalVenta : ℚ
  montoPagado : ℚ
  saldoPendiente : ℚ
deriving DecidableEq

/-- `ventas_df['Estado Pago'].isin(['Debe', 'Abono'])`: the row belongs to a
pending (not fully paid) sale. -/
def esPendiente (v : Venta) : Bool :=
  v.estadoPago == "Debe" || v.estadoPago == "Abono"

/-- Sum of `Total Venta` over the pending sales rows of one `ID Venta`
(`ventas_pendientes.groupby('ID Venta')['Total Venta'].sum()`). -/
def totalVentaPendienteDe (ventas : List Venta) (id : String) : ℚ :=
  (((ventas.filter esPendiente).filter (fun v => v.idVenta == id)).map
    (fun v => toNumeric0 v.totalVenta)).sum

/-- Sum of `Monto Pagado` over the payments of one `ID Venta`
(`pagos_df.groupby('ID Venta')['Monto Pagado'].sum()`, 0 after the left
merge's `fillna(0)` when the sale has no payment). -/
def totalPagadoDe (pagos : List Pago) (id : String) : ℚ :=
  ((pagos.filter (fun p => p.idVenta == id)).map
    (fun p => toNumeric0 p.montoPagado)).sum

/-- The `Cliente` shown for a sale: `agg Cliente first` over the grouped
pending rows. -/
def clientePendienteDe (ventas : List Venta) (id : String) : String :=
  ((((ventas.filter esPendiente).find? (fun v => v.idVenta == id)).map
    (fun v => v.cliente)).getD "")

/-- `resumen_deudas` (src/prueba.py lines 361-381): sales rows with
`Estado Pago` in `{Debe, Abono}` are grouped by `ID Venta` (summing
`Total Venta`, taking the first `Cliente`), left-merged with the payments
grouped by `ID Venta` (`fillna(0)`), and
`Saldo Pendiente = Total_Venta - Monto Pagado`. -/
def resumenDeudas (ventas : List Venta) (pagos : List Pago) : List DeudaRow :=
  (sortKeys ((ventas.filter esPendiente).map (fun v => v.idVenta))).map
    (fun id =>
      { idVenta := id
        cliente := clientePendienteDe ventas id
        totalVenta := totalVentaPendienteDe ventas id
        montoPagado := totalPagadoDe pagos id
        saldoPendiente := totalVentaPendienteDe ventas id - totalPagadoDe pagos id })

/-- The debt rows the page displays:
`resumen_deudas[resumen_deudas['Saldo Pendiente'] > 0.01]`. -/
def resumenDeudasVisibles (ventas : List Venta) (pagos : List Pago) :
    List DeudaRow :=
  (resumenDeudas ventas pagos).filter (fun r => decide (r.saldoPendiente > 1/100))

/-- The receivables computation as the claim words it: ALL sales rows are
grouped by `ID Venta` (no restriction to pending payment status), payments
are grouped likewise, and the balance is the difference.  Stated only to be
compared with `resumenDeudas`, which the source restricts to pending
sales. -/
def resumenDeudasClaim (ventas : List Venta) (pagos : List Pago) : List DeudaRow :=
  (sortKeys (ventas.map (fun v => v.idVenta))).map
    (fun id =>
      let owed := ((ventas.filter (fun v => v.idVenta == id)).map
        (fun v => toNumeric0 v.totalVenta)).sum
      { idVenta := id
        cliente := (((ventas.find? (fun v => v.idVenta == id)).map
          (fun v => v.cliente)).getD "")
        totalVenta := owed
        montoPagado := totalPagadoDe pagos id
        saldoPendiente := owed - totalPagadoDe pagos id })

/-- The visible rows of the claim-worded receivables computation. -/
def resumenDeudasVisiblesClaim (ventas : List Venta) (pagos : List Pago) :
    List DeudaRow :=
  (resumenDeudasClaim ventas pagos).filter
    (fun r => decide (r.saldoPendiente > 1/100))

/-- `registrar_abono_form` (src/prueba.py lines 388-413): a positive payment
for a sale chosen from the debt summary is appended to `Pagos`; when the new
balance (the summary's `Saldo Pendiente` minus the payment) is at most 0.01,
every `Ventas` cell holding that `ID Venta` has its row's `Estado Pago`
updated to `Pagado`.  `none` models the paths on which nothing is written
(non-positive amount, or a sale id absent from the summary, where `iloc[0]`
raises). -/
def registrarAbono (ventas : List Venta) (pagos : List Pago)
    (idVentaPago : String) (montoPago : ℚ) (idPago fechaPago mesPago : String) :
    Option (List Venta × List Pago) :=
  if montoPago > 0 then
    match (resumenDeudas ventas pagos).find? (fun r => r.idVenta == idVentaPago) with
    | none => none
    | some ventaInfo =>
      let pagosNuevos := pagos ++ [⟨idPago, idVentaPago, fechaPago, mesPago, some montoPago⟩]
      let nuevoSaldo := ventaInfo.saldoPendiente - montoPago
      let ventasNuevas :=
        if nuevoSaldo ≤ 1/100 then
          ventas.map (fun v =>
            if v.idVenta == idVentaPago then { v with estadoPago := "Pagado" } else v)
        else ventas
      some (ventasNuevas, pagosNuevos)
  else none

/-- `pagos_filtrados['Monto Pagado'].sum()`: payment income of the selected
period. -/
def ingresosDePagos (pagosF : List Pago) : ℚ :=
  (pagosF.map (fun p => toNumeric0 p.montoPagado)).sum

/-- The legacy rows of the selected period: sales marked `Pagado` whose
`ID Venta` never appears in the FULL payments log
(`~isin(pagos_df_full['ID Venta'].unique())`). -/
def ventasLegacyPagadas (ventasF : List Venta) (pagosFull : List Pago) :
    List Venta :=
  (ventasF.filter (fun v => v.estadoPago == "Pagado")).filter
    (fun v => !(pagosFull.map (fun p => p.idVenta)).contains v.idVenta)

/-- `ingresos_legacy`: `Total Venta` summed over the legacy rows (the
`groupby('ID Venta').sum().sum()` collapses to a plain sum). -/
def ingresosLegacy (ventasF : List Venta) (pagosFull : List Pago) : ℚ :=
  ((ventasLegacyPagadas ventasF pagosFull).map
    (fun v => toNumeric0 v.totalVenta)).sum

/-- `total_ingresos_reales` (src/prueba.py lines 464-474): period payment
income plus legacy paid-sale income. -/
def totalIngresosReales (ventasF : List Venta) (pagosF : List Pago)
    (pagosFull : List Pago) : ℚ :=
  ingresosDePagos pagosF + ingresosLegacy ventasF pagosFull

/-- `compras_filtradas.drop_duplicates(subset = ['ID Compra'])`: keep the
first row of every distinct `ID Compra`, preserving order. -/
def comprasSinDuplicados (seen : List String) : List Compra → List Compra
  | [] => []
  | c :: cs =>
    if c.idCompra ∈ seen then comprasSinDuplicados seen cs
    else c :: comprasSinDuplicados (c.idCompra :: seen) cs

/-- `total_gastos` (src/prueba.py lines 476-482): all `Costo Total` line
costs plus `Costo Envio` summed over one row per distinct `ID Compra`. -/
def totalGastos (comprasF : List Compra) : ℚ :=
  (comprasF.map (fun c => toNumeric0 c.costoTotal)).sum +
    ((comprasSinDuplicados [] comprasF).map (fun c => toNumeric0 c.costoEnvio)).sum

/-- `total_por_cobrar` (src/prueba.py lines 487-495), always over the FULL
logs: gross pending sale totals minus all payments whose `ID Venta` belongs
to a pending sale; 0 when no sale is pending. -/
def totalPorCobrar (ventasFull : List Venta) (pagosFull : List Pago) : ℚ :=
  let pendientes := ventasFull.filter esPendiente
  if pendientes.isEmpty then 0
  else
    (pendientes.map (fun v => toNumeric0 v.totalVenta)).sum -
      ((pagosFull.filter (fun p =>
          (pendientes.map (fun v => v.idVenta)).contains p.idVenta)).map
        (fun p => toNumeric0 p.montoPagado)).sum

/-- The four metrics of the Finanzas page. -/
structure ResumenFinanciero where
  ingresosReales : ℚ
  gastos : ℚ
  ganancia : ℚ
  porCobrar : ℚ
deriving DecidableEq

/-- The month filter of the Finanzas page: `none` is the `Todos` selection,
`some m` keeps the rows whose derived month equals `m`. -/
def ventasDelMes (ventas : List Venta) : Option String → List Venta
  | none => ventas
  | some m => ventas.filter (fun v => v.mes == m)

/-- Month filter for purchases. -/
def comprasDelMes (compras : List Compra) : Option String → List Compra
  | none => compras
  | some m => compras.filter (fun c => c.mes == m)

/-- Month filter for payments. -/
def pagosDelMes (pagos : List Pago) : Option String → List Pago
  | none => pagos
  | some m => pagos.filter (fun p => p.mes == m)

/-- The Finanzas page (src/prueba.py lines 420-504): income, expense and
profit are computed over the month-filtered logs (legacy detection still
consults the full payments log), while `Cuentas por Cobrar` is always
computed over the full history. -/
def finanzasReport (ventas : List Venta) (compras : List Compra)
    (pagos : List Pago) (mesSeleccionado : Option String) : ResumenFinanciero :=
  let vf := ventasDelMes ventas mesSeleccionado
  let cf := comprasDelMes compras mesSeleccionado
  let pf := pagosDelMes pagos mesSeleccionado
  { ingresosReales := totalIngresosReales vf pf pagos
    gastos := totalGastos cf
    ganancia := totalIngresosReales vf pf pagos - totalGastos cf
    porCobrar := totalPorCobrar ventas pagos }

/-- An item of the in-session cart of the sales form; `totalVenta` is set to
`Cantidad * Precio Unitario` when the item is added (src/prueba.py line
227). -/
structure ItemVenta where
  producto : String
  talla : String
  cantidad : ℚ
  precioUnitario : ℚ
  totalVenta : ℚ
deriving DecidableEq

/-- Adding an item to the cart stores `Total Venta = Cantidad * Precio`. -/
def agregarItemVenta (producto talla : String) (cantidad precio : ℚ) : ItemVenta :=
  ⟨producto, talla, cantidad, precio, cantidad * precio⟩

/-- `finalizar_venta_form` (src/prueba.py lines 250-276): an `Abono` with a
non-positive amount is rejected (`none`, nothing written).  Otherwise a
`Pagado` sale first appends one payment row holding the full cart total, an
`Abono` sale appends one payment row holding the initial installment, a
`Debe` sale appends no payment; then one `Ventas` row per cart item is
appended, all sharing the fresh `ID Venta` and the chosen status. -/
def finalizarVenta (ventas : List Venta) (pagos : List Pago)
    (items : List ItemVenta) (cliente estadoPago : String)
    (idVenta idPago fecha mes : String) (montoAbonoInicial : ℚ) :
    Option (List Venta × List Pago) :=
  if estadoPago == "Abono" && decide (montoAbonoInicial ≤ 0) then none
  else
    let total := (items.map (fun it => it.totalVenta)).sum
    let pagosNuevos :=
      if estadoPago == "Pagado" then
        pagos ++ [⟨idPago, idVenta, fecha, mes, some total⟩]
      else if estadoPago == "Abono" then
        pagos ++ [⟨idPago, idVenta, fecha, mes, some montoAbonoInicial⟩]
      else pagos
    let ventasNuevas := ventas ++ items.map (fun it =>
      ⟨idVenta, fecha, mes, it.producto, it.talla, cliente, some it.cantidad,
        some it.precioUnitario, some it.totalVenta, estadoPago⟩)
    some (ventasNuevas, pagosNuevos)

/-- Replace every numeric cell of a sales row by the numeral it is coerced
to (`none`, a malformed cell, becomes `some 0`). -/
def ventaSaneada (v : Venta) : Venta :=
  { v with cantidad := some (toNumeric0 v.cantidad)
           precioUnitario := some (toNumeric0 v.precioUnitario)
           totalVenta := some (toNumeric0 v.totalVenta) }

/-- Replace every numeric cell of a purchases row by its coercion. -/
def compraSaneada (c : Compra) : Compra :=
  { c with cantidad := some (toNumeric0 c.cantidad)
           costoTotal := some (toNumeric0 c.costoTotal)
           costoEnvio := some (toNumeric0 c.costoEnvio) }

/-- Replace the numeric cell of a payments row by its coercion. -/
def pagoSaneado (p : Pago) : Pago :=
  { p with montoPagado := some (toNumeric0 p.montoPagado) }

/-- `pd.to_numeric` with its default raising behaviour (src/app.py lines
395-399): the whole column converts only when every cell is numeric; a
malformed cell raises, modelled by `none`. -/
def toNumericStrict : List (Option ℚ) → Option (List ℚ)
  | [] => some []
  | x :: xs =>
    match x, toNumericStrict xs with
    | some q, some qs => some (q :: qs)
    | _, _ => none

/-- `total_ingresos` of the app.py Finanzas page (src/app.py line 395):
`pd.to_numeric(ventas_filtradas['Total Venta']).sum()` — it fails (raises)
on any malformed cell instead of coercing it. -/
def totalIngresosApp (ventasF : List Venta) : Option ℚ :=
  (toNumericStrict (ventasF.map (fun v => v.totalVenta))).map
    (fun l => l.sum)

/-! ### Key-list lemmas -/

theorem mem_dedupKeysAux {k : String} :
    ∀ {l seen : List String}, k ∈ dedupKeysAux seen l ↔ k ∈ l ∧ k ∉ seen := by
  intro l
  induction l with
  | nil => intro seen; simp [dedupKeysAux]
  | cons a l ih =>
    intro seen
    by_cases ha : a ∈ seen
    · rw [dedupKeysAux, if_pos ha, ih]
      constructor
      · rintro ⟨hk, hs⟩; exact ⟨List.mem_cons_of_mem _ hk, hs⟩
      · rintro ⟨hk, hs⟩
        rcases List.mem_cons.mp hk with rfl | hk
        · exact absurd ha hs
        · exact ⟨hk, hs⟩
    · rw [dedupKeysAux, if_neg ha]
      constructor
      · intro hmem
        rcases List.mem_cons.mp hmem with rfl | hmem
        · exact ⟨List.mem_cons_self _ _, ha⟩
        · obtain ⟨hk, hs⟩ := ih.mp hmem
          exact ⟨List.mem_cons_of_mem _ hk,
            fun hc => hs (List.mem_cons_of_mem _ hc)⟩
      · rintro ⟨hk, hs⟩
        rcases List.mem_cons.mp hk with rfl | hk
        · exact List.mem_cons_self _ _
        · by_cases hak : k = a
          · exact hak ▸ List.mem_cons_self _ _
          · refine List.mem_cons_of_mem _ (ih.mpr ⟨hk, ?_⟩)
            intro hc
            rcases List.mem_cons.mp hc with h | h
            · exact hak h
            · exact hs h

theorem nodup_dedupKeysAux :
    ∀ (l seen : List String), (dedupKeysAux seen l).Nodup := by
  intro l
  induction l with
  | nil => intro seen; simp [dedupKeysAux]
  | cons a l ih =>
    intro seen
    by_cases ha : a ∈ seen
    · rw [dedupKeysAux, if_pos ha]; exact ih seen
    · rw [dedupKeysAux, if_neg ha]
      refine List.nodup_cons.mpr ⟨?_, ih (a :: seen)⟩
      intro hmem
      exact (mem_dedupKeysAux.mp hmem).2 (List.mem_cons_self a seen)

theorem sortKeys_perm (l : List String) : (sortKeys l).Perm (dedupKeys l) :=
  List.perm_insertionSort _ _

theorem mem_sortKeys {k : String} {l : List String} :
    k ∈ sortKeys l ↔ k ∈ l := by
  rw [(sortKeys_perm l).mem_iff]
  simpa [dedupKeys] using @mem_dedupKeysAux k l []

theorem nodup_sortKeys (l : List String) : (sortKeys l).Nodup :=
  ((sortKeys_perm l).nodup_iff).mpr (nodup_dedupKeysAux l [])

/-! ### Sum lemmas -/

theorem sum_map_sub {α : Type} (f g : α → ℚ) (l : List α) :
    (l.map (fun a => f a - g a)).sum = (l.map f).sum - (l.map g).sum := by
  induction l with
  | nil => simp
  | cons a l ih => simp [ih]; ring

theorem sum_filter_split {α : Type} (f : α → ℚ) (p q : α → Bool) (l : List α) :
    ((l.filter p).map f).sum =
      ((l.filter (fun a => p a && q a)).map f).sum +
        ((l.filter (fun a => p a && !q a)).map f).sum := by
  induction l with
  | nil => simp
  | cons a l ih =>
    by_cases hp : p a
    · by_cases hq : q a
      · simp [List.filter_cons, hp, hq, ih]; ring
      · simp [List.filter_cons, hp, hq, ih]; ring
    · simp [List.filter_cons, hp, ih]

theorem sum_over_dedupKeysAux {α : Type} (key : α → String) (f : α → ℚ) :
    ∀ (S : List String) (seen : List String) (l : List α),
      ((dedupKeysAux seen S).map
        (fun k => ((l.filter (fun a => key a == k)).map f).sum)).sum =
      ((l.filter (fun a => S.contains (key a) && !seen.contains (key a))).map
        f).sum := by
  intro S
  induction S with
  | nil =>
    intro seen l
    simp [dedupKeysAux]
  | cons k0 S ih =>
    intro seen l
    by_cases hk : k0 ∈ seen
    · rw [dedupKeysAux, if_pos hk, ih]
      refine congrArg _ (congrArg _ ?_)
      refine List.filter_congr ?_
      intro a _
      by_cases hs : key a ∈ seen
      · simp [hs]
      · have hne : ¬ key a = k0 := fun h => hs (h ▸ hk)
        simp [hs, hne]
    · rw [dedupKeysAux, if_neg hk, List.map_cons, List.sum_cons, ih]
      rw [sum_filter_split f
        (fun a => (k0 :: S).contains (key a) && !seen.contains (key a))
        (fun a => key a == k0) l]
      have h1 : (l.filter (fun a =>
          ((k0 :: S).contains (key a) && !seen.contains (key a)) &&
            (key a == k0))) = l.filter (fun a => key a == k0) := by
        refine List.filter_congr ?_
        intro a _
        by_cases he : key a = k0
        · simp [he, hk]
        · simp [he]
      have h2 : (l.filter (fun a =>
          ((k0 :: S).contains (key a) && !seen.contains (key a)) &&
            !(key a == k0))) =
          l.filter (fun a =>
            S.contains (key a) && !(k0 :: seen).contains (key a)) := by
        refine List.filter_congr ?_
        intro a _
        by_cases he : key a = k0
        · simp [he]
        · by_cases hs : key a ∈ seen <;> simp [he, hs]
      rw [h1, h2]

theorem sum_group {α : Type} (key : α → String) (f : α → ℚ) (l : List α) :
    (l.map f).sum =
      ((dedupKeys (l.map key)).map
        (fun k => ((l.filter (fun a => key a == k)).map f).sum)).sum := by
  rw [dedupKeys, sum_over_dedupKeysAux key f (l.map key) [] l]
  refine congrArg _ (congrArg _ ?_)
  have : l.filter (fun a =>
      (l.map key).contains (key a) && !([] : List String).contains (key a)) =
      l.filter (fun _ => true) := by
    refine List.filter_congr ?_
    intro a ha
    simp [List.mem_map]
    exact ⟨a, ha, rfl⟩
  rw [this, List.filter_true]

theorem sum_filter_contains {α : Type} (key : α → String) (f : α → ℚ)
    (S : List String) (l : List α) :
    ((l.filter (fun a => S.contains (key a))).map f).sum =
      ((dedupKeys S).map
        (fun k => ((l.filter (fun a => key a == k)).map f).sum)).sum := by
  rw [dedupKeys, sum_over_dedupKeysAux key f S [] l]
  refine congrArg _ (congrArg _ ?_)
  refine List.filter_congr ?_
  intro a _
  simp

/-! ### Separator-splitting lemmas -/

theorem hasSep_tail {c : Char} {rest : List Char}
    (h : hasSep (c :: rest) = false) : hasSep rest = false := by
  rw [hasSep.eq_def] at h
  split at h
  · exact absurd h (by simp)
  · rename_i heq
    cases heq
    exact h
  · rename_i heq
    cases heq

theorem endsSpaceDash_tail {c : Char} {rest : List Char}
    (h : endsSpaceDash (c :: rest) = false) : endsSpaceDash rest = false := by
  match rest with
  | [] => rfl
  | [d] => rfl
  | d :: e :: rest' => exact h

theorem splitSep_of_no_sep :
    ∀ {xs : List Char}, hasSep xs = false → splitSep xs = [xs] := by
  intro xs
  induction xs using splitSep.induct with
  | case1 rest ih =>
    intro h
    exact absurd h (by rw [hasSep]; simp)
  | case2 c rest hne hrest ih =>
    intro h
    rw [ih (hasSep_tail h)] at hrest
    cases hrest
  | case3 c rest hne y ys hyys ih =>
    intro h
    rw [splitSep.eq_2 c rest hne, ih (hasSep_tail h)]
  | case4 =>
    intro _
    rfl

theorem splitSep_append_sep :
    ∀ {p : List Char}, hasSep p = false → endsSpaceDash p = false →
      ∀ s : List Char,
        splitSep (p ++ ' ' :: '-' :: ' ' :: s) = p :: splitSep s := by
  intro p
  induction p with
  | nil =>
    intro _ _ s
    rw [List.nil_append, splitSep]
  | cons c p' ih =>
    intro hp hpe s
    have hside : ∀ tail : List Char,
        c = ' ' → p' ++ ' ' :: '-' :: ' ' :: s = '-' :: ' ' :: tail → False := by
      intro tail hc htl
      match p', htl with
      | [], htl =>
        rw [List.nil_append] at htl
        cases htl
      | [d], htl =>
        rw [List.cons_append, List.nil_append] at htl
        have hd : d = '-' := (List.cons.injEq _ _ _ _).mp htl |>.1
        subst hc; subst hd
        exact absurd hpe (by decide)
      | d :: e :: p'', htl =>
        rw [List.cons_append, List.cons_append] at htl
        have hd : d = '-' := (List.cons.injEq _ _ _ _).mp htl |>.1
        have he : e = ' ' :=
          ((List.cons.injEq _ _ _ _).mp ((List.cons.injEq _ _ _ _).mp htl).2).1
        subst hc; subst hd; subst he
        exact absurd hp (by rw [hasSep]; simp)
    rw [List.cons_append, splitSep.eq_2 c _ hside,
      ih (hasSep_tail hp) (endsSpaceDash_tail hpe) s]

theorem string_mk_data (s : String) : String.mk s.data = s := rfl

theorem data_append_sep (p t : String) :
    (p ++ " - " ++ t).data = p.data ++ ' ' :: '-' :: ' ' :: t.data := by
  simp [String.data_append]

/-! ### Claim C1 -/

/-- Claim C1: for every Sales and Purchases log the recomputed inventory has
exactly one row per SKU in the union of the SKUs of the two logs (its row
list is the sorted distinct SKU list, without duplicates, and a SKU appears
iff it appears in a purchase or a sale); each row carries
`Unidades Compradas` = the sum of purchase quantities of its SKU,
`Unidades Vendidas` = the sum of sale quantities of its SKU (0 for the
missing side, by the empty sum), and
`Stock Actual = Unidades Compradas - Unidades Vendidas`; and two empty logs
produce the empty (headers-only) snapshot rather than an error. -/
theorem c1_inventario_correcto (compras : List Compra) (ventas : List Venta)
    (now : String) :
    ((actualizarInventario now compras ventas).map (fun r => r.sku) =
        sortKeys (compras.map skuCompra ++ ventas.map skuVenta)) ∧
    ((actualizarInventario now compras ventas).map (fun r => r.sku)).Nodup ∧
    (∀ s : String,
      s ∈ (actualizarInventario now compras ventas).map (fun r => r.sku) ↔
        s ∈ compras.map skuCompra ∨ s ∈ ventas.map skuVenta) ∧
    (∀ r ∈ actualizarInventario now compras ventas,
      r.unidadesCompradas = unidadesCompradasDe compras r.sku ∧
        r.unidadesVendidas = unidadesVendidasDe ventas r.sku ∧
        r.stockActual = r.unidadesCompradas - r.unidadesVendidas) ∧
    actualizarInventario now [] [] = [] := by
  have hsku : (actualizarInventario now compras ventas).map (fun r => r.sku) =
      sortKeys (compras.map skuCompra ++ ventas.map skuVenta) := by
    unfold actualizarInventario
    by_cases h : compras.isEmpty && ventas.isEmpty
    · rw [if_pos h]
      obtain ⟨hc, hv⟩ := Bool.and_eq_true_iff.mp h
      rw [List.isEmpty_iff.mp hc, List.isEmpty_iff.mp hv]
      rfl
    · rw [if_neg h, List.map_map]
      exact List.map_id' _
  refine ⟨hsku, ?_, ?_, ?_, rfl⟩
  · rw [hsku]; exact nodup_sortKeys _
  · intro s
    rw [hsku, mem_sortKeys, List.mem_append]
  · intro r hr
    unfold actualizarInventario at hr
    by_cases h : compras.isEmpty && ventas.isEmpty
    · rw [if_pos h] at hr
      cases hr
    · rw [if_neg h] at hr
      obtain ⟨s, _, rfl⟩ := List.mem_map.mp hr
      exact ⟨rfl, rfl, rfl⟩

/-- Claim C1 witness: a concrete log pair with the same SKU bought (3) and
sold (2), instantiating the general theorem. -/
theorem c1_testigo :
    (∀ r ∈ actualizarInventario "2025-01-01 10:00:00"
        [⟨"C1", "f1", "m1", "Bata", "S", "Prov", some 3, some 30, some 5⟩]
        [⟨"V1", "f2", "m2", "Bata", "S", "Ana", some 2, some 50, some 100, "Debe"⟩],
      r.stockActual = r.unidadesCompradas - r.unidadesVendidas) ∧
    actualizarInventario "2025-01-01 10:00:00" [] [] = [] := by
  have h := c1_inventario_correcto
    [⟨"C1", "f1", "m1", "Bata", "S", "Prov", some 3, some 30, some 5⟩]
    [⟨"V1", "f2", "m2", "Bata", "S", "Ana", some 2, some 50, some 100, "Debe"⟩]
    "2025-01-01 10:00:00"
  exact ⟨fun r hr => (h.2.2.2.1 r hr).2.2, h.2.2.2.2⟩

/-! ### Claim C2 -/

/-- Claim C2 counterexample: the recomputation stamps every row with the
current clock reading (`Fecha Actualizacion`), so two runs over the same
logs at different clock readings give different snapshot rows — the claim's
unqualified "identical output snapshots" fails once the stamp column is
compared. -/
theorem c2_contraejemplo :
    actualizarInventario "2025-01-01 00:00:00"
        [⟨"C1", "f", "m", "Bata", "S", "Prov", some 3, some 30, some 5⟩] [] ≠
      actualizarInventario "2025-01-01 00:00:01"
        [⟨"C1", "f", "m", "Bata", "S", "Prov", some 3, some 30, some 5⟩] [] := by
  with_unfolding_all decide

/-- Claim C2 (amended): recomputing the inventory is a pure function of the
two logs and the clock; recomputing twice from identical logs yields
identical snapshots in every data column (SKU, Producto, Talla, the two unit
sums and Stock Actual) — identical outright whenever the clock stamp
coincides — the only possible difference being the `Fecha Actualizacion`
stamp. -/
theorem c2_idempotente (compras : List Compra) (ventas : List Venta)
    (n1 n2 : String) :
    (actualizarInventario n1 compras ventas).map datosFila =
      (actualizarInventario n2 compras ventas).map datosFila := by
  unfold actualizarInventario
  by_cases h : compras.isEmpty && ventas.isEmpty
  · rw [if_pos h, if_pos h]
  · rw [if_neg h, if_neg h, List.map_map, List.map_map]
    rfl

/-- Claim C2 witness: the amended theorem at a concrete log and two clock
readings. -/
theorem c2_testigo :
    (actualizarInventario "2025-01-01 00:00:00"
        [⟨"C1", "f", "m", "Bata", "S", "Prov", some 3, some 30, some 5⟩] []).map
        datosFila =
      (actualizarInventario "2025-01-01 00:00:01"
        [⟨"C1", "f", "m", "Bata", "S", "Prov", some 3, some 30, some 5⟩] []).map
        datosFila :=
  c2_idempotente [⟨"C1", "f", "m", "Bata", "S", "Prov", some 3, some 30, some 5⟩]
    [] "2025-01-01 00:00:00" "2025-01-01 00:00:01"

/-! ### Claim C8 -/

/-- Claim C8 counterexample: the product name `"A -"` and the size `"B"`
contain no `" - "` separator, yet the SKU built from them is `"A - - B"`,
which splits back to `["A", "- B"]` — the round-trip fails although neither
name contains the separator, because the product's trailing `" -"` merges
with the separator. -/
theorem c8_contraejemplo :
    hasSep "A -".data = false ∧ hasSep "B".data = false ∧
      splitSku (skuOf "A -" "B") ≠ ["A -", "B"] := by decide

/-- Claim C8 (amended): building the SKU as `product ++ " - " ++ size` and
splitting it back on `" - "` recovers the pair for every product and size
not containing the separator, provided additionally the product name does
not end with `" -"`; a product or size containing `" - "` (or a product
ending in `" -"`) corrupts the split on read-back. -/
theorem c8_sku_ida_y_vuelta (p t : String) (hp : hasSep p.data = false)
    (hpe : endsSpaceDash p.data = false) (ht : hasSep t.data = false) :
    splitSku (skuOf p t) = [p, t] := by
  unfold splitSku skuOf
  rw [data_append_sep p t, splitSep_append_sep hp hpe t.data,
    splitSep_of_no_sep ht, List.map_cons, List.map_cons, List.map_nil,
    string_mk_data, string_mk_data]

/-- Claim C8 witness: the pair `("Bata", "S")` of the spec round-trips. -/
theorem c8_testigo : splitSku (skuOf "Bata" "S") = ["Bata", "S"] :=
  c8_sku_ida_y_vuelta "Bata" "S" (by decide) (by decide) (by decide)

/-! ### Claim C3 -/

theorem mem_comprasSinDuplicados {c : Compra} :
    ∀ {l : List Compra} {seen : List String},
      c ∈ comprasSinDuplicados seen l → c ∈ l := by
  intro l
  induction l with
  | nil => intro seen h; cases h
  | cons a l ih =>
    intro seen h
    rw [comprasSinDuplicados] at h
    by_cases ha : a.idCompra ∈ seen
    · rw [if_pos ha] at h
      exact List.mem_cons_of_mem _ (ih h)
    · rw [if_neg ha] at h
      rcases List.mem_cons.mp h with rfl | h
      · exact List.mem_cons_self _ _
      · exact List.mem_cons_of_mem _ (ih h)

theorem ids_comprasSinDuplicados :
    ∀ (l : List Compra) (seen : List String),
      (comprasSinDuplicados seen l).map (fun c => c.idCompra) =
        dedupKeysAux seen (l.map (fun c => c.idCompra)) := by
  intro l
  induction l with
  | nil => intro seen; rfl
  | cons a l ih =>
    intro seen
    rw [List.map_cons, comprasSinDuplicados, dedupKeysAux]
    by_cases ha : a.idCompra ∈ seen
    · rw [if_pos ha, if_pos ha, ih]
    · rw [if_neg ha, if_neg ha, List.map_cons, ih]

/-- Claim C3: for every purchases log whose rows price shipping consistently
per purchase (all lines of one `ID Compra` carry the same `Costo Envio`,
described by a function `envioDe` of the purchase id), `total_gastos` equals
the sum of all line costs plus the sum of `envioDe` over the distinct
purchase ids — each purchase's shipping is counted exactly once no matter
how many line items share its `ID Compra`. -/
theorem c3_total_gastos (compras : List Compra) (envioDe : String → ℚ)
    (h : ∀ c ∈ compras, toNumeric0 c.costoEnvio = envioDe c.idCompra) :
    totalGastos compras =
      (compras.map (fun c => toNumeric0 c.costoTotal)).sum +
        ((dedupKeys (compras.map (fun c => c.idCompra))).map envioDe).sum := by
  unfold totalGastos
  refine congrArg _ ?_
  have h1 : (comprasSinDuplicados [] compras).map (fun c => toNumeric0 c.costoEnvio) =
      (comprasSinDuplicados [] compras).map (fun c => envioDe c.idCompra) :=
    List.map_congr_left (fun c hc => h c (mem_comprasSinDuplicados hc))
  rw [h1]
  have h2 : (comprasSinDuplicados [] compras).map (fun c => envioDe c.idCompra) =
      ((comprasSinDuplicados [] compras).map (fun c => c.idCompra)).map envioDe := by
    rw [List.map_map]; rfl
  rw [h2, ids_comprasSinDuplicados, dedupKeys]

/-- Claim C3 witness: a purchase split across three line items sharing one
`ID Compra` with shipping 5 has the 5 counted exactly once:
10 + 20 + 30 + 5 = 65. -/
theorem c3_testigo :
    totalGastos
      [⟨"C1", "f", "m", "Bata", "S", "P", some 1, some 10, some 5⟩,
       ⟨"C1", "f", "m", "Bata", "M", "P", some 1, some 20, some 5⟩,
       ⟨"C1", "f", "m", "Bata", "L", "P", some 1, some 30, some 5⟩] = 65 := by
  rw [c3_total_gastos _ (fun _ => (5 : ℚ))
    (by intro c hc; fin_cases hc <;> rfl)]
  with_unfolding_all decide

/-! ### Claim C4 -/

theorem resumenDeudas_ids (ventas : List Venta) (pagos : List Pago) :
    (resumenDeudas ventas pagos).map (fun r => r.idVenta) =
      sortKeys ((ventas.filter esPendiente).map (fun v => v.idVenta)) := by
  unfold resumenDeudas
  rw [List.map_map]
  exact List.map_id' _

/-- Claim C4 counterexample: on a log holding one sale `"V1"` of total 100
with status `Pagado` and no payments, the computation as the claim words it
(grouping ALL sales) reports `"V1"` with an outstanding balance above the
epsilon, but the source computation reports nothing: the source first
restricts to the pending (`Debe`/`Abono`) rows, which the claim omits. -/
theorem c4_contraejemplo :
    (resumenDeudasVisibles
        [⟨"V1", "f", "m", "Bata", "S", "Ana", some 1, some 100, some 100,
          "Pagado"⟩] []).map (fun r => r.idVenta) = [] ∧
      (resumenDeudasVisiblesClaim
        [⟨"V1", "f", "m", "Bata", "S", "Ana", some 1, some 100, some 100,
          "Pagado"⟩] []).map (fun r => r.idVenta) = ["V1"] := by
  with_unfolding_all decide

/-- Claim C4 (amended): the receivables computation groups the Sales rows
whose `payment_status` is `Debe` or `Abono` (not all Sales rows) by sale id,
summing `Total Venta` into the owed total; payments are grouped by sale id
into the paid total (0 when absent); each reported row carries the
difference as its outstanding balance and only balances strictly above the
0.01 epsilon are reported, one row per pending sale id. -/
theorem c4_resumen_deudas (ventas : List Venta) (pagos : List Pago) :
    (∀ r ∈ resumenDeudasVisibles ventas pagos,
      r.totalVenta = totalVentaPendienteDe ventas r.idVenta ∧
        r.montoPagado = totalPagadoDe pagos r.idVenta ∧
        r.saldoPendiente = r.totalVenta - r.montoPagado ∧
        r.saldoPendiente > 1/100) ∧
    ((resumenDeudasVisibles ventas pagos).map (fun r => r.idVenta)).Nodup ∧
    (∀ id : String,
      id ∈ (resumenDeudasVisibles ventas pagos).map (fun r => r.idVenta) ↔
        id ∈ (ventas.filter esPendiente).map (fun v => v.idVenta) ∧
          totalVentaPendienteDe ventas id - totalPagadoDe pagos id > 1/100) := by
  refine ⟨?_, ?_, ?_⟩
  · intro r hr
    obtain ⟨hmem, hcond⟩ := List.mem_filter.mp hr
    obtain ⟨id, hid, rfl⟩ := List.mem_map.mp hmem
    exact ⟨rfl, rfl, rfl, of_decide_eq_true hcond⟩
  · refine List.Nodup.sublist (List.Sublist.map _ (List.filter_sublist _)) ?_
    rw [resumenDeudas_ids]
    exact nodup_sortKeys _
  · intro id
    constructor
    · intro hmem
      obtain ⟨r, hr, rfl⟩ := List.mem_map.mp hmem
      obtain ⟨hmem2, hcond⟩ := List.mem_filter.mp hr
      obtain ⟨id0, hid0, rfl⟩ := List.mem_map.mp hmem2
      exact ⟨mem_sortKeys.mp hid0, of_decide_eq_true hcond⟩
    · rintro ⟨hid, hsaldo⟩
      refine List.mem_map.mpr ⟨_, List.mem_filter.mpr
        ⟨List.mem_map.mpr ⟨id, mem_sortKeys.mpr hid, rfl⟩,
          decide_eq_true hsaldo⟩, rfl⟩

/-- Claim C4 witness: one pending sale of 100 with a payment of 40 is
reported with balance 60 (above the epsilon). -/
theorem c4_testigo :
    "V1" ∈ (resumenDeudasVisibles
        [⟨"V1", "f", "m", "Bata", "S", "Ana", some 1, some 100, some 100,
          "Abono"⟩]
        [⟨"P1", "V1", "f", "m", some 40⟩]).map (fun r => r.idVenta) := by
  refine ((c4_resumen_deudas
    [⟨"V1", "f", "m", "Bata", "S", "Ana", some 1, some 100, some 100, "Abono"⟩]
    [⟨"P1", "V1", "f", "m", some 40⟩]).2.2 "V1").mpr ⟨?_, ?_⟩
  · with_unfolding_all decide
  · with_unfolding_all decide

/-! ### Claim C5 -/

/-- Claim C5: registering a payment appends the payment row, and when the
sale's remaining balance (its summary `Saldo Pendiente` minus the payment,
i.e. its post-payment outstanding balance) is at most the 0.01 epsilon,
every `Ventas` row of that sale id ends with `Estado Pago = "Pagado"`; the
sale consequently disappears from the recomputed debt summary (it is
treated as fully paid, outstanding 0 within the epsilon). -/
theorem c5_abono_salda (ventas : List Venta) (pagos : List Pago)
    (idV : String) (monto : ℚ) (idP fp mp : String) (info : DeudaRow)
    (hpos : monto > 0)
    (hfind : (resumenDeudas ventas pagos).find? (fun r => r.idVenta == idV) =
      some info)
    (hsaldo : info.saldoPendiente - monto ≤ 1/100) :
    ∃ ventasN : List Venta,
      registrarAbono ventas pagos idV monto idP fp mp =
        some (ventasN, pagos ++ [⟨idP, idV, fp, mp, some monto⟩]) ∧
      (∀ v ∈ ventasN, v.idVenta = idV → v.estadoPago = "Pagado") ∧
      idV ∉ (resumenDeudas ventasN
        (pagos ++ [⟨idP, idV, fp, mp, some monto⟩])).map (fun r => r.idVenta) := by
  refine ⟨ventas.map (fun v =>
    if v.idVenta == idV then { v with estadoPago := "Pagado" } else v), ?_, ?_, ?_⟩
  · unfold registrarAbono
    rw [if_pos hpos, hfind]
    dsimp only
    rw [if_pos hsaldo]
  · intro v hv hvid
    obtain ⟨v0, _, rfl⟩ := List.mem_map.mp hv
    by_cases h0 : v0.idVenta == idV
    · rw [if_pos h0]
    · rw [if_neg h0] at hvid ⊢
      exact absurd (beq_iff_eq.mpr hvid) h0
  · intro hmem
    rw [resumenDeudas_ids] at hmem
    obtain ⟨v, hv, hvid⟩ := List.mem_map.mp (mem_sortKeys.mp hmem)
    obtain ⟨hv2, hpend⟩ := List.mem_filter.mp hv
    obtain ⟨v0, _, rfl⟩ := List.mem_map.mp hv2
    by_cases h0 : v0.idVenta == idV
    · rw [if_pos h0] at hpend
      simp [esPendiente] at hpend
    · rw [if_neg h0] at hvid
      exact absurd (beq_iff_eq.mpr hvid) h0

/-- Claim C5 witness: a sale of 100 (status `Debe`, no prior payments) paid
with a single payment of 99.999 leaves balance 0.001 ≤ 0.01, so the sale row
turns `Pagado` and disappears from the debt summary. -/
theorem c5_testigo :
    ∃ ventasN : List Venta,
      registrarAbono
          [⟨"V1", "f", "m", "Bata", "S", "Ana", some 1, some 100, some 100,
            "Debe"⟩] [] "V1" (99999/1000) "P1" "fp" "mp" =
        some (ventasN, [⟨"P1", "V1", "fp", "mp", some (99999/1000)⟩]) ∧
      (∀ v ∈ ventasN, v.idVenta = "V1" → v.estadoPago = "Pagado") := by
  obtain ⟨vn, h1, h2, _⟩ := c5_abono_salda
    [⟨"V1", "f", "m", "Bata", "S", "Ana", some 1, some 100, some 100, "Debe"⟩]
    [] "V1" (99999/1000) "P1" "fp" "mp" ⟨"V1", "Ana", 100, 0, 100⟩
    (by with_unfolding_all decide) (by with_unfolding_all decide)
    (by with_unfolding_all decide)
  exact ⟨vn, h1, h2⟩

/-! ### Claim C7 -/

/-- Claim C7: the `Cuentas por Cobrar` metric of the Finanzas page does not
depend on the selected month — any two selections agree — and it equals the
sum, over the distinct pending sale ids of the full unfiltered history, of
that sale's outstanding balance (owed total minus paid total). -/
theorem c7_por_cobrar_total (ventas : List Venta) (compras : List Compra)
    (pagos : List Pago) (m1 m2 : Option String) :
    ((finanzasReport ventas compras pagos m1).porCobrar =
      (finanzasReport ventas compras pagos m2).porCobrar) ∧
    (finanzasReport ventas compras pagos m1).porCobrar =
      ((dedupKeys ((ventas.filter esPendiente).map (fun v => v.idVenta))).map
        (fun id => totalVentaPendienteDe ventas id -
          totalPagadoDe pagos id)).sum := by
  constructor
  · rfl
  · show totalPorCobrar ventas pagos = _
    unfold totalPorCobrar
    by_cases h : (ventas.filter esPendiente).isEmpty
    · rw [if_pos h, List.isEmpty_iff.mp h]
      rfl
    · rw [if_neg h]
      rw [sum_map_sub (fun id => totalVentaPendienteDe ventas id)
        (fun id => totalPagadoDe pagos id)]
      have howed : ((ventas.filter esPendiente).map
          (fun v => toNumeric0 v.totalVenta)).sum =
          ((dedupKeys ((ventas.filter esPendiente).map (fun v => v.idVenta))).map
            (fun id => totalVentaPendienteDe ventas id)).sum := by
        rw [sum_group (fun v : Venta => v.idVenta)
          (fun v => toNumeric0 v.totalVenta) (ventas.filter esPendiente)]
        rfl
      have hpaid : ((pagos.filter (fun p =>
          ((ventas.filter esPendiente).map (fun v => v.idVenta)).contains
            p.idVenta)).map (fun p => toNumeric0 p.montoPagado)).sum =
          ((dedupKeys ((ventas.filter esPendiente).map (fun v => v.idVenta))).map
            (fun id => totalPagadoDe pagos id)).sum := by
        rw [sum_filter_contains (fun p : Pago => p.idVenta)
          (fun p => toNumeric0 p.montoPagado)
          ((ventas.filter esPendiente).map (fun v => v.idVenta)) pagos]
        rfl
      rw [howed, hpaid]

/-- Claim C7 witness: with one pending sale of 100 paid 40 and one unrelated
month filter choice, both month selections report receivables 60. -/
theorem c7_testigo :
    ((finanzasReport
        [⟨"V1", "f", "2025-01", "Bata", "S", "Ana", some 1, some 100, some 100,
          "Abono"⟩] [] [⟨"P1", "V1", "f", "2025-02", some 40⟩]
        (some "2025-02")).porCobrar =
      (finanzasReport
        [⟨"V1", "f", "2025-01", "Bata", "S", "Ana", some 1, some 100, some 100,
          "Abono"⟩] [] [⟨"P1", "V1", "f", "2025-02", some 40⟩]
        none).porCobrar) ∧
    (finanzasReport
        [⟨"V1", "f", "2025-01", "Bata", "S", "Ana", some 1, some 100, some 100,
          "Abono"⟩] [] [⟨"P1", "V1", "f", "2025-02", some 40⟩]
        (some "2025-02")).porCobrar = 60 := by
  have h := c7_por_cobrar_total
    [⟨"V1", "f", "2025-01", "Bata", "S", "Ana", some 1, some 100, some 100,
      "Abono"⟩] [] [⟨"P1", "V1", "f", "2025-02", some 40⟩]
    (some "2025-02") none
  refine ⟨h.1, ?_⟩
  rw [h.2]
  with_unfolding_all decide

/-! ### Claim C6 -/

/-- Claim C6: for every period selection, the real-income metric equals the
period's payment amounts plus, summed exactly once per sale id, the line
totals of the period's sales that are marked `Pagado` and whose sale id has
no payment row anywhere in the full Payments log; no sale id is counted in
both terms, since every legacy sale id has no payment row at all. -/
theorem c6_ingresos_reales (ventas : List Venta) (compras : List Compra)
    (pagos : List Pago) (mes : Option String) :
    ((finanzasReport ventas compras pagos mes).ingresosReales =
      ((pagosDelMes pagos mes).map (fun p => toNumeric0 p.montoPagado)).sum +
        ((dedupKeys ((ventasLegacyPagadas (ventasDelMes ventas mes) pagos).map
            (fun v => v.idVenta))).map
          (fun id => (((ventasLegacyPagadas (ventasDelMes ventas mes)
              pagos).filter (fun v => v.idVenta == id)).map
            (fun v => toNumeric0 v.totalVenta)).sum)).sum) ∧
    ∀ v ∈ ventasLegacyPagadas (ventasDelMes ventas mes) pagos,
      ∀ q ∈ pagos, q.idVenta ≠ v.idVenta := by
  constructor
  · show totalIngresosReales (ventasDelMes ventas mes) (pagosDelMes pagos mes)
      pagos = _
    unfold totalIngresosReales ingresosDePagos ingresosLegacy
    refine congrArg _ ?_
    exact sum_group (fun v : Venta => v.idVenta)
      (fun v => toNumeric0 v.totalVenta)
      (ventasLegacyPagadas (ventasDelMes ventas mes) pagos)
  · intro v hv q hq heq
    obtain ⟨_, hnc⟩ := List.mem_filter.mp hv
    rw [Bool.not_eq_eq_eq_not, Bool.not_true] at hnc
    have : (pagos.map (fun p => p.idVenta)).contains v.idVenta = true := by
      have : v.idVenta ∈ pagos.map (fun p => p.idVenta) :=
        List.mem_map.mpr ⟨q, hq, heq⟩
      simpa using this
    rw [this] at hnc
    cases hnc

/-- Claim C6 witness: a legacy sale (`Pagado`, no payment rows) of 100 in
the selected month contributes exactly 100, once, and is disjoint from the
payments term. -/
theorem c6_testigo :
    ((finanzasReport
        [⟨"V1", "f", "2025-01", "Bata", "S", "Ana", some 1, some 100, some 100,
          "Pagado"⟩] [] [] (some "2025-01")).ingresosReales = 100) ∧
    ∀ v ∈ ventasLegacyPagadas (ventasDelMes
        [⟨"V1", "f", "2025-01", "Bata", "S", "Ana", some 1, some 100, some 100,
          "Pagado"⟩] (some "2025-01")) [],
      ∀ q ∈ ([] : List Pago), q.idVenta ≠ v.idVenta := by
  have h := c6_ingresos_reales
    [⟨"V1", "f", "2025-01", "Bata", "S", "Ana", some 1, some 100, some 100,
      "Pagado"⟩] [] [] (some "2025-01")
  refine ⟨?_, h.2⟩
  rw [h.1]
  with_unfolding_all decide

/-! ### Claim C9 -/

theorem filter_map_comm {α β : Type} (f : α → β) (p : β → Bool) (l : List α) :
    (l.map f).filter p = (l.filter (fun a => p (f a))).map f := by
  induction l with
  | nil => rfl
  | cons a l ih =>
    by_cases h : p (f a) <;> simp [List.filter_cons, h, ih]

theorem find?_map_comm {α β : Type} (f : α → β) (p : β → Bool) (l : List α) :
    (l.map f).find? p = (l.find? (fun a => p (f a))).map f := by
  induction l with
  | nil => rfl
  | cons a l ih =>
    by_cases h : p (f a) <;> simp [List.find?_cons, h, ih]

theorem isEmpty_map {α β : Type} (f : α → β) (l : List α) :
    (l.map f).isEmpty = l.isEmpty := by
  cases l <;> rfl

theorem unidadesCompradas_saneadas (compras : List Compra) (s : String) :
    unidadesCompradasDe (compras.map compraSaneada) s =
      unidadesCompradasDe compras s := by
  unfold unidadesCompradasDe
  rw [filter_map_comm, List.map_map]
  rfl

theorem unidadesVendidas_saneadas (ventas : List Venta) (s : String) :
    unidadesVendidasDe (ventas.map ventaSaneada) s =
      unidadesVendidasDe ventas s := by
  unfold unidadesVendidasDe
  rw [filter_map_comm, List.map_map]
  rfl

theorem inventario_saneado (now : String) (compras : List Compra)
    (ventas : List Venta) :
    actualizarInventario now (compras.map compraSaneada)
        (ventas.map ventaSaneada) = actualizarInventario now compras ventas := by
  unfold actualizarInventario
  rw [isEmpty_map, isEmpty_map]
  by_cases h : compras.isEmpty && ventas.isEmpty
  · rw [if_pos h, if_pos h]
  · rw [if_neg h, if_neg h]
    have hkeys : (compras.map compraSaneada).map skuCompra ++
        (ventas.map ventaSaneada).map skuVenta =
        compras.map skuCompra ++ ventas.map skuVenta := by
      rw [List.map_map, List.map_map]; rfl
    rw [hkeys]
    refine List.map_congr_left ?_
    intro s _
    unfold filaInventario
    rw [unidadesCompradas_saneadas, unidadesVendidas_saneadas]

theorem totalVentaPendiente_saneada (ventas : List Venta) (id : String) :
    totalVentaPendienteDe (ventas.map ventaSaneada) id =
      totalVentaPendienteDe ventas id := by
  unfold totalVentaPendienteDe
  rw [filter_map_comm, filter_map_comm, List.map_map]
  rfl

theorem totalPagado_saneado (pagos : List Pago) (id : String) :
    totalPagadoDe (pagos.map pagoSaneado) id = totalPagadoDe pagos id := by
  unfold totalPagadoDe
  rw [filter_map_comm, List.map_map]
  rfl

theorem clientePendiente_saneado (ventas : List Venta) (id : String) :
    clientePendienteDe (ventas.map ventaSaneada) id =
      clientePendienteDe ventas id := by
  unfold clientePendienteDe
  rw [filter_map_comm, find?_map_comm, Option.map_map]
  rfl

theorem resumen_saneado (ventas : List Venta) (pagos : List Pago) :
    resumenDeudas (ventas.map ventaSaneada) (pagos.map pagoSaneado) =
      resumenDeudas ventas pagos := by
  unfold resumenDeudas
  have hids : ((ventas.map ventaSaneada).filter esPendiente).map
      (fun v => v.idVenta) =
      (ventas.filter esPendiente).map (fun v => v.idVenta) := by
    rw [filter_map_comm, List.map_map]; rfl
  rw [hids]
  refine List.map_congr_left ?_
  intro id _
  rw [clientePendiente_saneado, totalVentaPendiente_saneada, totalPagado_saneado]

theorem ventasDelMes_saneadas (ventas : List Venta) (mes : Option String) :
    ventasDelMes (ventas.map ventaSaneada) mes =
      (ventasDelMes ventas mes).map ventaSaneada := by
  cases mes with
  | none => rfl
  | some m => exact filter_map_comm _ _ _

theorem comprasDelMes_saneadas (compras : List Compra) (mes : Option String) :
    comprasDelMes (compras.map compraSaneada) mes =
      (comprasDelMes compras mes).map compraSaneada := by
  cases mes with
  | none => rfl
  | some m => exact filter_map_comm _ _ _

theorem pagosDelMes_saneados (pagos : List Pago) (mes : Option String) :
    pagosDelMes (pagos.map pagoSaneado) mes =
      (pagosDelMes pagos mes).map pagoSaneado := by
  cases mes with
  | none => rfl
  | some m => exact filter_map_comm _ _ _

theorem ingresosLegacy_saneados (ventasF : List Venta) (pagos : List Pago) :
    ingresosLegacy (ventasF.map ventaSaneada) (pagos.map pagoSaneado) =
      ingresosLegacy ventasF pagos := by
  unfold ingresosLegacy ventasLegacyPagadas
  have hpm : (pagos.map pagoSaneado).map (fun p => p.idVenta) =
      pagos.map (fun p => p.idVenta) := by
    rw [List.map_map]; rfl
  rw [hpm, filter_map_comm, filter_map_comm, List.map_map]
  rfl

theorem ingresosReales_saneados (ventasF : List Venta) (pagosF : List Pago)
    (pagos : List Pago) :
    totalIngresosReales (ventasF.map ventaSaneada) (pagosF.map pagoSaneado)
        (pagos.map pagoSaneado) = totalIngresosReales ventasF pagosF pagos := by
  unfold totalIngresosReales ingresosDePagos
  rw [List.map_map, ingresosLegacy_saneados]
  rfl

theorem comprasSinDuplicados_saneadas :
    ∀ (l : List Compra) (seen : List String),
      comprasSinDuplicados seen (l.map compraSaneada) =
        (comprasSinDuplicados seen l).map compraSaneada := by
  intro l
  induction l with
  | nil => intro seen; rfl
  | cons a l ih =>
    intro seen
    rw [List.map_cons, comprasSinDuplicados, comprasSinDuplicados]
    have hid : (compraSaneada a).idCompra = a.idCompra := rfl
    rw [hid]
    by_cases ha : a.idCompra ∈ seen
    · rw [if_pos ha, if_pos ha, ih]
    · rw [if_neg ha, if_neg ha, List.map_cons, ih]

theorem totalGastos_saneados (comprasF : List Compra) :
    totalGastos (comprasF.map compraSaneada) = totalGastos comprasF := by
  unfold totalGastos
  rw [List.map_map, comprasSinDuplicados_saneadas, List.map_map]
  rfl

theorem totalPorCobrar_saneado (ventas : List Venta) (pagos : List Pago) :
    totalPorCobrar (ventas.map ventaSaneada) (pagos.map pagoSaneado) =
      totalPorCobrar ventas pagos := by
  unfold totalPorCobrar
  dsimp only
  rw [filter_map_comm]
  rw [isEmpty_map]
  by_cases h : (ventas.filter (fun v => esPendiente (ventaSaneada v))).isEmpty
  · have h2 : (ventas.filter esPendiente).isEmpty = true := h
    rw [if_pos h, if_pos h2]
  · have h2 : ¬ (ventas.filter esPendiente).isEmpty = true := h
    rw [if_neg h, if_neg h2]
    have hids : ((ventas.filter (fun v => esPendiente (ventaSaneada v))).map
        ventaSaneada).map (fun v => v.idVenta) =
        (ventas.filter esPendiente).map (fun v => v.idVenta) := by
      rw [List.map_map]; rfl
    rw [hids, List.map_map, filter_map_comm, List.map_map]
    rfl

/-- Claim C9 counterexample: the claim quantifies over ALL the aggregations
of the repository (its sources include src/app.py), but the app.py Finanzas
page converts `Total Venta` with `pd.to_numeric` in its default raising
mode: on a sales row whose `Total Venta` is malformed the aggregation fails
(`none`) instead of coercing the cell to zero and producing a sum. -/
theorem c9_contraejemplo :
    totalIngresosApp
        [⟨"V1", "f", "m", "Bata", "S", "Ana", some 1, some 100, none,
          "Debe"⟩] = none ∧
      (none : Option ℚ) ≠ some 0 := by
  exact ⟨rfl, by simp⟩

/-- Claim C9 (amended): in the prueba.py revision every aggregation over the
Sales, Purchases and Payments logs coerces a malformed numeric cell to zero
rather than rejecting it: the recomputed inventory, the debt summary and the
whole Finanzas report are unchanged when every malformed cell is replaced by
a literal 0 (and, all functions being total, no input is rejected); in the
app.py revision the Finanzas aggregations instead fail on malformed cells. -/
theorem c9_coercion_a_cero (ventas : List Venta) (compras : List Compra)
    (pagos : List Pago) (now : String) (mes : Option String) :
    (actualizarInventario now (compras.map compraSaneada)
        (ventas.map ventaSaneada) = actualizarInventario now compras ventas) ∧
    (resumenDeudas (ventas.map ventaSaneada) (pagos.map pagoSaneado) =
      resumenDeudas ventas pagos) ∧
    (finanzasReport (ventas.map ventaSaneada) (compras.map compraSaneada)
        (pagos.map pagoSaneado) mes = finanzasReport ventas compras pagos mes) := by
  refine ⟨inventario_saneado now compras ventas, resumen_saneado ventas pagos, ?_⟩
  unfold finanzasReport
  dsimp only
  rw [ventasDelMes_saneadas, comprasDelMes_saneadas, pagosDelMes_saneados,
    ingresosReales_saneados, totalGastos_saneados, totalPorCobrar_saneado]

/-- Claim C9 witness: a purchase row whose quantity cell is malformed
aggregates exactly as the same row with quantity 0. -/
theorem c9_testigo :
    actualizarInventario "t"
        [⟨"C1", "f", "m", "Bata", "S", "P", some 0, some 10, some 5⟩] [] =
      actualizarInventario "t"
        [⟨"C1", "f", "m", "Bata", "S", "P", none, some 10, some 5⟩] [] :=
  (c9_coercion_a_cero []
    [⟨"C1", "f", "m", "Bata", "S", "P", none, some 10, some 5⟩] [] "t" none).1

/-! ### Claim C10 -/

/-- Claim C10: finalizing a sale with a fresh sale id keeps Ventas and Pagos
consistent at creation — with status `Pagado`, exactly one payment row for
that sale id is appended and it holds the full cart total; with status
`Abono` (whose form constrains the installment to the interval from 0.01 to
the cart total), exactly one payment row holding the installment; with
status `Debe`, no payment row; hence a freshly created `Pagado` sale always
has a payment row and is never a legacy zero-payment sale. -/
theorem c10_venta_consistente (ventas : List Venta) (pagos : List Pago)
    (items : List ItemVenta) (cliente estado idV idP fecha mes : String)
    (monto : ℚ)
    (hfresh : idV ∉ pagos.map (fun p => p.idVenta))
    (hmonto : estado = "Abono" →
      1/100 ≤ monto ∧ monto ≤ (items.map (fun it => it.totalVenta)).sum) :
    ∃ ventasN pagosN,
      (finalizarVenta ventas pagos items cliente estado idV idP fecha mes
        monto = some (ventasN, pagosN)) ∧
      (estado = "Pagado" →
        pagosN.filter (fun p => p.idVenta == idV) =
          [⟨idP, idV, fecha, mes,
            some ((items.map (fun it => it.totalVenta)).sum)⟩]) ∧
      (estado = "Abono" →
        pagosN.filter (fun p => p.idVenta == idV) =
          [⟨idP, idV, fecha, mes, some monto⟩]) ∧
      (estado = "Debe" → pagosN.filter (fun p => p.idVenta == idV) = []) ∧
      (estado = "Pagado" → ∃ p ∈ pagosN, p.idVenta = idV) := by
  have hbase : pagos.filter (fun p => p.idVenta == idV) = [] := by
    refine List.filter_eq_nil_iff.mpr ?_
    intro p hp hbeq
    exact hfresh (List.mem_map.mpr ⟨p, hp, beq_iff_eq.mp hbeq⟩)
  have hc : (estado == "Abono" && decide (monto ≤ 0)) = false := by
    by_cases hab : estado = "Abono"
    · have h1 := (hmonto hab).1
      have h2 : ¬ monto ≤ 0 := by
        intro hle
        have : (1 : ℚ)/100 ≤ 0 := le_trans h1 hle
        norm_num at this
      simp [h2]
    · simp [hab]
  unfold finalizarVenta
  rw [hc]
  simp only [Bool.false_eq_true, if_false]
  refine ⟨_, _, rfl, ?_, ?_, ?_, ?_⟩
  · intro hpag
    subst hpag
    rw [if_pos (by rfl), List.filter_append, hbase, List.nil_append]
    simp
  · intro hab
    subst hab
    rw [if_neg (by simp), if_pos (by rfl), List.filter_append, hbase,
      List.nil_append]
    simp
  · intro hdeb
    subst hdeb
    rw [if_neg (by simp), if_neg (by simp)]
    exact hbase
  · intro hpag
    subst hpag
    rw [if_pos (by rfl)]
    exact ⟨⟨idP, idV, fecha, mes,
      some ((items.map (fun it => it.totalVenta)).sum)⟩,
      List.mem_append_right _ (List.mem_singleton.mpr rfl), rfl⟩

/-- Claim C10 witness: a one-item cart (2 units at 50) finalized as `Pagado`
with fresh id `"V1"` appends exactly one payment of the full total 100. -/
theorem c10_testigo :
    ∃ ventasN pagosN,
      (finalizarVenta [] [] [agregarItemVenta "Bata" "S" 2 50] "Ana" "Pagado"
        "V1" "P1" "f" "m" 0 = some (ventasN, pagosN)) ∧
      pagosN.filter (fun p => p.idVenta == "V1") =
        [⟨"P1", "V1", "f", "m", some 100⟩] := by
  obtain ⟨vn, pn, h1, h2, _, _, _⟩ := c10_venta_consistente [] []
    [agregarItemVenta "Bata" "S" 2 50] "Ana" "Pagado" "V1" "P1" "f" "m" 0
    (by simp) (by intro h; exact absurd h (by decide))
  refine ⟨vn, pn, h1, ?_⟩
  rw [h2 rfl]
  with_unfolding_all decide
